import Mathlib

/-!
# Verification of the `announcements` publish/subscribe dispatcher

A shallow embedding of `announcements/core.py`: announcement types with
hierarchy matching, announcement sets, subscriptions (strong and weak),
the subscription registry, and the `Announcer` facade.

Modelling conventions:
* A Python object's identity is a natural number (`id`).  Python's `is`
  and the identity-based hashing of subscription objects become equality
  of these identifiers.
* `issubclass(a, b)` is membership of `b` in `a`'s method-resolution
  chain; each type value carries its own identity together with the list
  of identities of its strict ancestors.
* Machine-level exceptions are values of `PyErr`; a fallible operation
  returns `Except PyErr α`.  An exception raised by user code inside a
  subscribed action is `PyErr.userError n` where `n` identifies the action.
* The registry's backing store is a Python `set`; we keep the elements in
  a list in registration order, and model `list(self.subscriptions)` —
  whose enumeration order a Python set does not specify — as an arbitrary
  permutation of that list (`isSnapshotOf`).
* Delivery is pure: invoking an action produces a `CallEvent` recording
  the call that the interpreter performed.
-/

/-- An announcement type (a Python class object): its identity plus the
identities of its strict ancestor classes, as Python's `issubclass`
consults the method-resolution order. -/
structure Ty where
  id : Nat
  ancestors : List Nat
deriving DecidableEq, Repr

/-- Python `issubclass(a, b)`: `b` is `a` itself or appears among `a`'s
ancestors. -/
def issubclass (a b : Ty) : Bool :=
  a.id == b.id || a.ancestors.contains b.id

namespace Announcement

/-- Source `Announcement.handles` (core.py line 95): `announcementClass is cls
or issubclass(announcementClass, cls)`. -/
def handles (cls announcementClass : Ty) : Bool :=
  announcementClass.id == cls.id || issubclass announcementClass cls

end Announcement

namespace AnnouncementSet

/-- Source `AnnouncementSet.handles` (core.py line 130): any member of the
announcements set can handle the candidate class. -/
def handles (announcements : List Ty) (announcementClass : Ty) : Bool :=
  announcements.any (fun i => Announcement.handles i announcementClass)

end AnnouncementSet

/-- The `announcementClass` slot of a subscription: either a plain
announcement class or an `AnnouncementSet` (its members listed). -/
inductive Matcher where
  | single (t : Ty)
  | mset (members : List Ty)
deriving DecidableEq, Repr

/-- Dispatch of `self.announcementClass.handles(...)` over the two kinds
of matcher. -/
def Matcher.handles : Matcher → Ty → Bool
  | .single t, c => Announcement.handles t c
  | .mset ms, c => AnnouncementSet.handles ms c

/-- A callable usable as a subscription action.  `argsCount` is
`len(inspect.getargspec(action).args)` — the number of declared
positional parameters, including the implicit receiver when the callable
is a bound method (`isMethod`).  `raises` records whether invoking the
action raises an exception (user code failing). -/
structure PyAction where
  id : Nat
  argsCount : Nat
  isMethod : Bool
  raises : Bool
deriving DecidableEq, Repr

/-- Exceptions that the embedded code can raise. -/
inductive PyErr where
  /-- The `AssertionError` from the `assert` in `Announcer.subscribe`. -/
  | assertionError
  /-- The `TypeError("Incompatible signature")` from `deliver`. -/
  | incompatibleSignature
  /-- The `TypeError` from `inspect.getargspec` applied to a non-callable
  (for instance `None`). -/
  | getargspecError
  /-- The `AttributeError` from `getattr(to, send)`. -/
  | attributeError
  /-- The `KeyError` from `set.remove` on an absent element. -/
  | keyError
  /-- The `TypeError` from `weakref.ref(None)`. -/
  | weakrefNone
  /-- An exception raised by the user-supplied action with identity `n`. -/
  | userError (n : Nat)
deriving DecidableEq, Repr

/-- An announcement instance: its class and its object identity. -/
structure Ann where
  ty : Ty
  objId : Nat
deriving DecidableEq, Repr

/-- The argument of `announce`: either a bare class or an instance. -/
inductive AnnValue where
  | cls (t : Ty)
  | inst (a : Ann)
deriving DecidableEq, Repr

/-- Source `Announcement.asAnnouncement` (core.py line 84): a class is
instantiated (the new instance gets the fresh identity supplied by the
allocator), an instance is returned unchanged. -/
def asAnnouncement (fresh : Nat) : AnnValue → Ann
  | .cls t => ⟨t, fresh⟩
  | .inst a => a

/-- A record of one action invocation performed by `deliver`: the action
called with no argument, with the announcement, or with the announcement
and the announcer. -/
inductive CallEvent where
  | call0 (action : Nat)
  | call1 (action : Nat) (ann : Nat)
  | call2 (action : Nat) (ann : Nat) (announcer : Nat)
deriving DecidableEq, Repr

/-- An `AnnouncementSubscription` (strong) or
`WeakAnnouncementSubscription` (`weak = true`).  `subscriber` and
`action` are `Option`s: both are initialised to `None` and
`Announcer.subscribe` can leave them unset.  For a weak subscription the
stored identities are the weak references' referents; liveness at
dereference time is supplied by a `WeakEnv`. -/
structure Subscription where
  id : Nat
  announcer : Nat
  announcementClass : Matcher
  subscriber : Option Nat
  action : Option PyAction
  weak : Bool
deriving DecidableEq, Repr

namespace Subscription

/-- Source `AnnouncementSubscription.handles` (core.py line 264). -/
def handles (s : Subscription) (announcementClass : Ty) : Bool :=
  s.announcementClass.handles announcementClass

/-- Source `AnnouncementSubscription.isMethod` (core.py line 282). -/
def isMethod (s : Subscription) : Bool :=
  match s.action with
  | some a => a.isMethod
  | none => false

/-- The count computed by `getArgumentsCount` for a callable action:
`len(inspect.getargspec(action).args)`, minus one when the action is a
bound method (`self` is passed automatically).  The count is an integer:
a bound method declaring no parameters at all would yield `-1`. -/
def argumentsCountOf (a : PyAction) : Int :=
  if a.isMethod then (a.argsCount : Int) - 1 else (a.argsCount : Int)

/-- Source `AnnouncementSubscription.getArgumentsCount` (core.py line 272).
`inspect.getargspec` raises a `TypeError` when the action is not a
function — in particular when it is `None`. -/
def getArgumentsCount (s : Subscription) : Except PyErr Int :=
  match s.action with
  | none => .error .getargspecError
  | some a => .ok (argumentsCountOf a)

/-- Invoking an action: the call is recorded; if the user code fails the
exception carries the action's identity. -/
def invoke (a : PyAction) (ev : CallEvent) : List CallEvent × Option PyErr :=
  ([ev], if a.raises then some (.userError a.id) else none)

/-- Source `AnnouncementSubscription.deliver` (core.py line 228): nothing
happens unless the matcher handles the announcement's type; then the
action is called with 0, 1 or 2 arguments according to
`getArgumentsCount`, and any other arity raises
`TypeError("Incompatible signature")`. -/
def deliver (s : Subscription) (announcement : Ann) : List CallEvent × Option PyErr :=
  if s.handles announcement.ty then
    match s.action with
    | none => ([], some .getargspecError)
    | some a =>
        let argumentsCount := argumentsCountOf a
        if argumentsCount = 0 then invoke a (.call0 a.id)
        else if argumentsCount = 1 then invoke a (.call1 a.id announcement.objId)
        else if argumentsCount = 2 then invoke a (.call2 a.id announcement.objId s.announcer)
        else ([], some .incompatibleSignature)
  else ([], none)

end Subscription

/-- The `SubscriptionRegistry`: its `subscriptions` attribute is a Python
`set` of subscription objects, hashed by identity.  We list the elements
in registration order; set semantics are recovered by keeping identities
unique and by taking snapshots up to permutation (`isSnapshotOf`). -/
structure SubscriptionRegistry where
  subscriptions : List Subscription
deriving DecidableEq, Repr

namespace SubscriptionRegistry

/-- Membership of a subscription object in the backing set: Python
hashes these objects by identity. -/
def containsSub (r : SubscriptionRegistry) (s : Subscription) : Bool :=
  r.subscriptions.any (fun x => x.id == s.id)

/-- Source `SubscriptionRegistry.add` (core.py line 360): `set.add` is a
no-op when an object of the same identity is already present. -/
def add (r : SubscriptionRegistry) (s : Subscription) : SubscriptionRegistry :=
  if r.containsSub s then r else ⟨r.subscriptions ++ [s]⟩

/-- Raw `set.remove` (used by `replace`): raises `KeyError` when the
element is absent. -/
def setRemove (l : List Subscription) (s : Subscription) :
    Except PyErr (List Subscription) :=
  if l.any (fun x => x.id == s.id) then .ok (l.filter (fun x => x.id ≠ s.id))
  else .error .keyError

/-- Source `SubscriptionRegistry.remove` (core.py line 365): membership is
checked first, so the raw `set.remove` below it cannot raise. -/
def remove (r : SubscriptionRegistry) (s : Subscription) :
    Except PyErr SubscriptionRegistry :=
  if r.containsSub s then (setRemove r.subscriptions s).map SubscriptionRegistry.mk
  else .ok r

/-- Source `SubscriptionRegistry.replace` (core.py line 377): a raw
`set.remove` of the old subscription — signalling `KeyError` when it is
not there — followed by `set.add` of the new one, under the lock. -/
def replace (r : SubscriptionRegistry) (subscription newOne : Subscription) :
    Except PyErr (Subscription × SubscriptionRegistry) :=
  match setRemove r.subscriptions subscription with
  | .error e => .error e
  | .ok l => .ok (newOne, SubscriptionRegistry.mk l |>.add newOne)

/-- Source `SubscriptionRegistry.deliverTo` (core.py line 391): iterate
over the snapshot; a failing delivery is caught, the remaining
subscriptions are delivered by a recursive call on the tail slice, and
then the caught exception is re-raised — unless the recursive call
itself raised, in which case that (later) exception propagates instead
and the bare `raise` is never reached. -/
def deliverTo (announcement : Ann) : List Subscription → List CallEvent × Option PyErr
  | [] => ([], none)
  | subscription :: rest =>
      match subscription.deliver announcement with
      | (evts, none) =>
          let (evts2, err2) := deliverTo announcement rest
          (evts ++ evts2, err2)
      | (evts, some e) =>
          let (evts2, err2) := deliverTo announcement rest
          (evts ++ evts2, some (err2.getD e))

/-- The snapshot `list(self.subscriptions)` taken by
`SubscriptionRegistry.deliver` (core.py line 386) under the lock: a
Python `set` enumerates its elements in an unspecified order, so a
snapshot is any permutation of the registered subscriptions. -/
def isSnapshotOf (snap : List Subscription) (r : SubscriptionRegistry) : Prop :=
  snap.Perm r.subscriptions

instance (snap : List Subscription) (r : SubscriptionRegistry) :
    Decidable (isSnapshotOf snap r) :=
  inferInstanceAs (Decidable (snap.Perm r.subscriptions))

end SubscriptionRegistry

namespace Announcer

/-- Source `Announcer.announce` (core.py line 152): normalize the
argument to an instance, deliver through the registry only when the
registry is non-empty (`if self.registry:` tests `__len__`), and return
the instance.  A delivery failure propagates as an exception instead of
returning.  `snap` is the snapshot enumeration the registry's set
produces for this call. -/
def announce (r : SubscriptionRegistry) (snap : List Subscription)
    (x : AnnValue) (fresh : Nat) : List CallEvent × Except PyErr Ann :=
  let announcement := asAnnouncement fresh x
  if r.subscriptions.length ≠ 0 then
    match SubscriptionRegistry.deliverTo announcement snap with
    | (evts, none) => (evts, .ok announcement)
    | (evts, some e) => (evts, .error e)
  else ([], .ok announcement)

/-- A receiver object: its identity and its named bound methods, for
`getattr(to, send)`. -/
structure Receiver where
  id : Nat
  methods : List (String × PyAction)

/-- Source `Announcer.subscribe` (core.py line 158).  The `assert` rejects
the case where `do` and one of `send`/`to` are both provided (a supplied
argument is a non-None object, hence truthy); it does not reject the
case where none of them is provided.  When `send` is given, the action
is resolved as `getattr(to, send)` — an `AttributeError` when `to` is
None or has no such attribute.  The subscriber is `to or do`.  The new
subscription object gets the fresh identity `freshId`. -/
def subscribe (announcerId freshId : Nat) (r : SubscriptionRegistry)
    (announcementClass : Matcher) (do_ : Option PyAction) (send : Option String)
    (to_ : Option Receiver) : Except PyErr (Subscription × SubscriptionRegistry) :=
  if do_.isSome && (send.isSome || to_.isSome) then .error .assertionError
  else
    let resolved : Except PyErr (Option PyAction) :=
      match send with
      | some name =>
          match to_ with
          | none => .error .attributeError
          | some rcv =>
              match rcv.methods.lookup name with
              | some a => .ok (some a)
              | none => .error .attributeError
      | none => .ok do_
    match resolved with
    | .error e => .error e
    | .ok act =>
        let subscription : Subscription :=
          { id := freshId, announcer := announcerId,
            announcementClass := announcementClass,
            subscriber := (match to_ with
                           | some rcv => some rcv.id
                           | none => act.map (fun a => a.id)),
            action := act, weak := false }
        .ok (subscription, r.add subscription)

end Announcer

/-- Liveness of weakly referenced objects at dereference time:
`subAlive` for subscriber objects, `actAlive` for action objects. -/
structure WeakEnv where
  subAlive : Nat → Bool
  actAlive : Nat → Bool

namespace Subscription

/-- Source `AnnouncementSubscription.makeWeak` (core.py line 250) for a
strong subscription: build a `WeakAnnouncementSubscription` with the
same announcer, matcher, subscriber and action (held through weak
references — `weakref.ref(None)` raises a `TypeError` when a slot is
None), store the action on the subscriber under the mangled
`__announcementsIm` attribute (an effect on the subscriber object that
keeps the action reachable; it does not change the subscription), and
substitute the new subscription for `self` in the registry via
`Announcer.replace`.  Source `WeakAnnouncementSubscription.makeWeak`
(core.py line 334) for a subscription that is already weak: return
`self`, registry untouched. -/
def makeWeak (s : Subscription) (freshId : Nat) (r : SubscriptionRegistry) :
    Except PyErr (Subscription × SubscriptionRegistry) :=
  if s.weak then .ok (s, r)
  else
    match s.subscriber, s.action with
    | some subscriber, some a =>
        let subscription : Subscription :=
          { id := freshId, announcer := s.announcer,
            announcementClass := s.announcementClass,
            subscriber := some subscriber, action := some a, weak := true }
        r.replace s subscription
    | _, _ => .error .weakrefNone

/-- Source `WeakAnnouncementSubscription.makeStrong` (core.py line 322)
for a weak subscription: build a strong `AnnouncementSubscription` with
the same announcer and matcher, dereferencing the weak subscriber and
action (a dead referent dereferences to None), and substitute it for
`self` in the registry.  Source `AnnouncementSubscription.makeStrong`
(core.py line 244) for a subscription that is already strong: return
`self`, registry untouched. -/
def makeStrong (env : WeakEnv) (s : Subscription) (freshId : Nat)
    (r : SubscriptionRegistry) : Except PyErr (Subscription × SubscriptionRegistry) :=
  if s.weak then
    let subscription : Subscription :=
      { id := freshId, announcer := s.announcer,
        announcementClass := s.announcementClass,
        subscriber := s.subscriber.bind
          (fun i => if env.subAlive i then some i else none),
        action := s.action.bind
          (fun a => if env.actAlive a.id then some a else none),
        weak := false }
    r.replace s subscription
  else .ok (s, r)

end Subscription

namespace WeakAnnouncementSubscription

/-- Source `WeakAnnouncementSubscription.finalize` (core.py line 318):
the weak-reference callback prints a line and calls
`announcer.removeSubscription(self)`, which is
`SubscriptionRegistry.remove` — the membership-checked removal. -/
def finalize (r : SubscriptionRegistry) (s : Subscription) :
    Except PyErr SubscriptionRegistry :=
  r.remove s

end WeakAnnouncementSubscription

namespace AnnouncementSet

/-- The heap of `AnnouncementSet` objects: the object's identity maps to
the member type identities of its underlying Python `set` (listed
without duplicates). -/
def SetHeap := Nat → List Nat

/-- Python `set.add`: a no-op when the element is already a member. -/
def pySetAdd (members : List Nat) (t : Nat) : List Nat :=
  if t ∈ members then members else members ++ [t]

/-- Source `AnnouncementMeta.__add__` (core.py line 65) composed with
`AnnouncementSet.__init__` (core.py line 106): adding two announcement
classes allocates a fresh `AnnouncementSet` holding `set((cls,
announcementClass))`. -/
def metaAdd (h : SetHeap) (fresh : Nat) (cls announcementClass : Nat) :
    Nat × SetHeap :=
  (fresh,
   fun i => if i = fresh then pySetAdd (pySetAdd [] cls) announcementClass else h i)

/-- Source `AnnouncementSet.__add__` (core.py line 113): `self.add(...)`
resolves through `__getattr__` (core.py line 127) to the underlying
`set.add`, mutating the receiver's `announcements` set in place, and
`self` itself is returned. -/
def addOp (h : SetHeap) (s : Nat) (announcementClass : Nat) : Nat × SetHeap :=
  (s, fun i => if i = s then pySetAdd (h i) announcementClass else h i)

end AnnouncementSet

/-! ### Concrete fixtures for witnesses and counterexamples -/

/-- A base announcement class. -/
def tyBase : Ty := ⟨0, []⟩

/-- A direct subclass of `tyBase`. -/
def tyChild : Ty := ⟨1, [0]⟩

/-- A class unrelated to `tyBase`. -/
def tyOther : Ty := ⟨2, []⟩

/-- A one-argument function action that succeeds. -/
def aOne : PyAction := ⟨1, 1, false, false⟩

/-- Another one-argument function action that succeeds. -/
def aTwo : PyAction := ⟨2, 1, false, false⟩

/-- A subscription of `aOne` to `tyBase`. -/
def cS1 : Subscription := ⟨1, 0, .single tyBase, some 1, some aOne, false⟩

/-- A subscription of `aTwo` to `tyBase`. -/
def cS2 : Subscription := ⟨2, 0, .single tyBase, some 2, some aTwo, false⟩

/-- A registry holding `cS1` then `cS2`, in that registration order. -/
def cReg : SubscriptionRegistry := ⟨[cS1, cS2]⟩

/-- An announcement instance of `tyBase` with identity 9. -/
def cAnn : Ann := ⟨tyBase, 9⟩

/-- A one-argument action that raises when invoked. -/
def fAct1 : PyAction := ⟨11, 1, false, true⟩

/-- A second one-argument action that raises when invoked. -/
def fAct2 : PyAction := ⟨12, 1, false, true⟩

/-- A one-argument action that succeeds. -/
def okAct : PyAction := ⟨13, 1, false, false⟩

/-- A subscription whose action `fAct1` raises. -/
def fSub1 : Subscription := ⟨21, 0, .single tyBase, some 11, some fAct1, false⟩

/-- A subscription whose action `fAct2` raises. -/
def fSub2 : Subscription := ⟨22, 0, .single tyBase, some 12, some fAct2, false⟩

/-- A subscription whose action succeeds. -/
def okSub : Subscription := ⟨23, 0, .single tyBase, some 13, some okAct, false⟩

/-- A subscription to the unrelated class `tyOther` whose action slot is
`None` (as a subscribe call providing neither `do` nor `send`/`to`
produces). -/
def oddSub : Subscription := ⟨24, 0, .single tyOther, none, none, false⟩

/-- A subscription to `tyOther` whose action declares seven parameters. -/
def made7Sub : Subscription := ⟨25, 0, .single tyOther, some 14, some ⟨14, 7, false, false⟩, false⟩

/-- A heap with one `AnnouncementSet` object, identity 0, holding the
single member 1. -/
def h0 : AnnouncementSet.SetHeap := fun i => if i = 0 then [1] else []

/-- A weak-reference environment in which every referent is alive. -/
def allAlive : WeakEnv := ⟨fun _ => true, fun _ => true⟩

/-! ### Helper lemmas -/

/-- The calls performed by `deliverTo` are the concatenation, in
snapshot order, of the calls each subscription's own `deliver` performs:
the recursive re-entry after a failure continues with exactly the
remaining slice, so no subscription is visited twice and none is
skipped. -/
theorem deliverTo_events (announcement : Ann) (subs : List Subscription) :
    (SubscriptionRegistry.deliverTo announcement subs).1
      = subs.flatMap (fun s => (s.deliver announcement).1) := by
  induction subs with
  | nil => rfl
  | cons s rest ih =>
      rcases hd : s.deliver announcement with ⟨evts, err⟩
      cases err with
      | none => simp [SubscriptionRegistry.deliverTo, hd, ih]
      | some e => simp [SubscriptionRegistry.deliverTo, hd, ih]

/-- A matching subscription whose action has declared arity 0, 1 or 2
performs exactly one call. -/
theorem deliver_single_call (s : Subscription) (a : PyAction) (announcement : Ann)
    (ha : s.action = some a)
    (hm : s.handles announcement.ty = true)
    (hc : Subscription.argumentsCountOf a = 0 ∨ Subscription.argumentsCountOf a = 1 ∨
          Subscription.argumentsCountOf a = 2) :
    ((s.deliver announcement).1).length = 1 := by
  unfold Subscription.deliver
  rw [hm, ha]
  simp only [if_true]
  rcases hc with h0 | h1 | h2
  · simp [h0, Subscription.invoke]
  · simp [h1, Subscription.invoke]
  · simp [h2, Subscription.invoke]

/-- A subscription whose matcher does not handle the announced type does
nothing. -/
theorem deliver_nonmatching (s : Subscription) (announcement : Ann)
    (hm : s.handles announcement.ty = false) :
    s.deliver announcement = ([], none) := by
  unfold Subscription.deliver
  rw [hm]
  simp

/-! ### C10 -/

/-- C10: for every subscription and every announcement instance whose
type the subscription's matcher does not handle,
`AnnouncementSubscription.deliver` is a complete no-op: no call is made
and no exception is raised, whatever the action slot holds — `None`, a
callable of arity outside 0–2, anything — because the arity inspection
sits under the successful matcher test. -/
theorem C10_nonmatching_deliver_is_noop (s : Subscription) (announcement : Ann)
    (hm : s.handles announcement.ty = false) :
    s.deliver announcement = ([], none) := by
  unfold Subscription.deliver
  rw [hm]
  simp

/-- Witness for C10: a subscription with a `None` action and one with a
seven-parameter action, both registered for a class unrelated to the
announced one, deliver nothing and raise nothing. -/
theorem C10_nonmatching_deliver_is_noop_witness :
    oddSub.deliver cAnn = ([], none) ∧ made7Sub.deliver cAnn = ([], none) :=
  ⟨C10_nonmatching_deliver_is_noop oddSub cAnn (by decide),
   C10_nonmatching_deliver_is_noop made7Sub cAnn (by decide)⟩

/-! ### C4 -/

/-- C4: when the matcher handles the announced type, `deliver` calls the
action according to its declared arity — 0 arguments, 1 argument (the
announcement), or 2 arguments (the announcement and the owning
announcer) — where a bound method's implicit receiver parameter is
excluded from the count; any other arity raises the
incompatible-signature `TypeError` for this delivery. -/
theorem C4_arity_dispatch (s : Subscription) (a : PyAction) (announcement : Ann)
    (ha : s.action = some a)
    (hm : s.handles announcement.ty = true) :
    (Subscription.getArgumentsCount s
        = .ok (if a.isMethod then (a.argsCount : Int) - 1 else (a.argsCount : Int)))
    ∧ (Subscription.argumentsCountOf a = 0 →
        s.deliver announcement = ([CallEvent.call0 a.id],
          if a.raises then some (PyErr.userError a.id) else none))
    ∧ (Subscription.argumentsCountOf a = 1 →
        s.deliver announcement = ([CallEvent.call1 a.id announcement.objId],
          if a.raises then some (PyErr.userError a.id) else none))
    ∧ (Subscription.argumentsCountOf a = 2 →
        s.deliver announcement = ([CallEvent.call2 a.id announcement.objId s.announcer],
          if a.raises then some (PyErr.userError a.id) else none))
    ∧ (Subscription.argumentsCountOf a ≠ 0 → Subscription.argumentsCountOf a ≠ 1 →
        Subscription.argumentsCountOf a ≠ 2 →
        s.deliver announcement = ([], some PyErr.incompatibleSignature)) := by
  refine ⟨?_, ?_, ?_, ?_, ?_⟩
  · simp [Subscription.getArgumentsCount, ha, Subscription.argumentsCountOf]
  · intro h0
    unfold Subscription.deliver
    rw [hm, ha]
    simp [h0, Subscription.invoke]
  · intro h1
    unfold Subscription.deliver
    rw [hm, ha]
    simp [h1, Subscription.invoke]
  · intro h2
    unfold Subscription.deliver
    rw [hm, ha]
    simp [h2, Subscription.invoke]
  · intro h0 h1 h2
    unfold Subscription.deliver
    rw [hm, ha]
    simp [h0, h1, h2]

/-- Witness for C4: a two-parameter bound method counts one effective
argument and receives the announcement; a zero-parameter function is
called bare; a three-parameter function is rejected with the
incompatible-signature error. -/
theorem C4_arity_dispatch_witness :
    (Subscription.getArgumentsCount ⟨30, 0, .single tyBase, some 7, some ⟨7, 2, true, false⟩, false⟩
        = .ok 1)
    ∧ ((⟨30, 0, .single tyBase, some 7, some ⟨7, 2, true, false⟩, false⟩ : Subscription).deliver cAnn
        = ([CallEvent.call1 7 9], none))
    ∧ ((⟨31, 0, .single tyBase, some 8, some ⟨8, 0, false, false⟩, false⟩ : Subscription).deliver cAnn
        = ([CallEvent.call0 8], none))
    ∧ ((⟨32, 0, .single tyBase, some 6, some ⟨6, 3, false, false⟩, false⟩ : Subscription).deliver cAnn
        = ([], some PyErr.incompatibleSignature)) := by
  refine ⟨?_, ?_, ?_, ?_⟩
  · have h := (C4_arity_dispatch ⟨30, 0, .single tyBase, some 7, some ⟨7, 2, true, false⟩, false⟩
      ⟨7, 2, true, false⟩ cAnn rfl (by decide)).1
    simpa using h
  · have h := (C4_arity_dispatch ⟨30, 0, .single tyBase, some 7, some ⟨7, 2, true, false⟩, false⟩
      ⟨7, 2, true, false⟩ cAnn rfl (by decide)).2.2.1
    simpa using h (by decide)
  · have h := (C4_arity_dispatch ⟨31, 0, .single tyBase, some 8, some ⟨8, 0, false, false⟩, false⟩
      ⟨8, 0, false, false⟩ cAnn rfl (by decide)).2.1
    simpa using h (by decide)
  · have h := (C4_arity_dispatch ⟨32, 0, .single tyBase, some 6, some ⟨6, 3, false, false⟩, false⟩
      ⟨6, 3, false, false⟩ cAnn rfl (by decide)).2.2.2.2
    simpa using h (by decide) (by decide) (by decide)

/-! ### C1 -/

/-- C1 (amended): over the snapshot taken at the start of delivery,
`deliver` invokes the action of every matching subscription exactly once
per call, one subscription after another in the order in which the
snapshot enumerates the set — which, the backing store being a Python
`set`, is an unspecified iteration order rather than the
registration/insertion order. -/
theorem C1_deliver_each_matching_once (r : SubscriptionRegistry)
    (snap : List Subscription) (announcement : Ann)
    (hsnap : SubscriptionRegistry.isSnapshotOf snap r)
    (hval : ∀ s ∈ snap, ∃ a, s.action = some a ∧
        (Subscription.argumentsCountOf a = 0 ∨ Subscription.argumentsCountOf a = 1 ∨
         Subscription.argumentsCountOf a = 2)) :
    ((SubscriptionRegistry.deliverTo announcement snap).1
        = snap.flatMap (fun s => (s.deliver announcement).1))
    ∧ (∀ s ∈ snap, s.handles announcement.ty = true →
        ((s.deliver announcement).1).length = 1)
    ∧ (∀ s ∈ snap, s.handles announcement.ty = false →
        (s.deliver announcement).1 = [])
    ∧ snap.Perm r.subscriptions := by
  refine ⟨deliverTo_events announcement snap, ?_, ?_, hsnap⟩
  · intro s hs hm
    obtain ⟨a, ha, hc⟩ := hval s hs
    exact deliver_single_call s a announcement ha hm hc
  · intro s hs hm
    rw [deliver_nonmatching s announcement hm]

/-- Witness for C1 (amended): the registry `cReg` delivered through the
snapshot `[cS1, cS2]`. -/
theorem C1_deliver_each_matching_once_witness :
    ((SubscriptionRegistry.deliverTo cAnn [cS1, cS2]).1
        = [cS1, cS2].flatMap (fun s => (s.deliver cAnn).1))
    ∧ (∀ s ∈ [cS1, cS2], s.handles cAnn.ty = true →
        ((s.deliver cAnn).1).length = 1)
    ∧ (∀ s ∈ [cS1, cS2], s.handles cAnn.ty = false →
        (s.deliver cAnn).1 = [])
    ∧ List.Perm [cS1, cS2] cReg.subscriptions :=
  C1_deliver_each_matching_once cReg [cS1, cS2] cAnn (List.Perm.refl _)
    (fun s hs => by
      rcases List.mem_cons.mp hs with h | h2
      · exact ⟨aOne, by subst h; rfl, Or.inr (Or.inl (by decide))⟩
      · rcases List.mem_cons.mp h2 with h | h3
        · exact ⟨aTwo, by subst h; rfl, Or.inr (Or.inl (by decide))⟩
        · simp at h3)

/-- Counterexample to C1 as stated: the reversed enumeration
`[cS2, cS1]` is a legitimate snapshot of `cReg` — a Python `set` does
not promise insertion order — and delivering over it invokes the two
actions in the opposite of their registration order `[cS1, cS2]`. -/
theorem C1_insertion_order_counterexample :
    SubscriptionRegistry.isSnapshotOf [cS2, cS1] cReg
    ∧ cReg.subscriptions = [cS1, cS2]
    ∧ (SubscriptionRegistry.deliverTo cAnn [cS2, cS1]).1
        = [CallEvent.call1 2 9, CallEvent.call1 1 9]
    ∧ (SubscriptionRegistry.deliverTo cAnn [cS2, cS1]).1
        ≠ [CallEvent.call1 1 9, CallEvent.call1 2 9] := by
  refine ⟨List.Perm.swap cS1 cS2 [], rfl, rfl, by decide⟩

/-! ### C2 -/

/-- C2, evaluated at the failing input: a snapshot of three
subscriptions whose first two actions raise.  Every subscription is
still attempted, exactly once and in order — but the exception that
reaches the caller is the one raised by the SECOND failing action
(identity 12), not the first (identity 11): the recursive re-delivery
sits inside the `except` block, so an exception escaping it replaces the
caught one and the bare `raise` of the first exception is never
executed. -/
theorem C2_first_error_claim_fails_on_code :
    SubscriptionRegistry.deliverTo cAnn [fSub1, fSub2, okSub]
      = ([CallEvent.call1 11 9, CallEvent.call1 12 9, CallEvent.call1 13 9],
         some (PyErr.userError 12))
    ∧ (SubscriptionRegistry.deliverTo cAnn [fSub1, fSub2, okSub]).2
        ≠ some (PyErr.userError 11) := by
  exact ⟨by decide, by decide⟩

/-! ### C3 -/

/-- Counterexample to C3 as stated: a `subscribe` call supplying neither
`do` nor `send`/`to` does NOT raise — the `assert` only rejects the
conjunction — and a subscription whose action slot is `None` is
registered. -/
theorem C3_neither_counterexample :
    (Announcer.subscribe 0 5 ⟨[]⟩ (.single tyBase) none none none).isOk = true
    ∧ Announcer.subscribe 0 5 ⟨[]⟩ (.single tyBase) none none none
        = .ok (⟨5, 0, .single tyBase, none, none, false⟩,
               ⟨[⟨5, 0, .single tyBase, none, none, false⟩]⟩) := by
  exact ⟨rfl, rfl⟩

/-- C3 (amended): supplying both the action (`do`) and the method-name
or receiver (`send`/`to`) raises the `AssertionError` immediately, before
any subscription is registered; supplying neither is NOT rejected — the
call succeeds and silently registers a subscription whose action and
subscriber are `None`. -/
theorem C3_both_raises_neither_registers (announcerId freshId : Nat)
    (r : SubscriptionRegistry) (m : Matcher) (a : PyAction)
    (send : Option String) (to_ : Option Announcer.Receiver)
    (hst : (send.isSome || to_.isSome) = true) :
    Announcer.subscribe announcerId freshId r m (some a) send to_
        = .error .assertionError
    ∧ Announcer.subscribe announcerId freshId r m none none none
        = .ok (⟨freshId, announcerId, m, none, none, false⟩,
               r.add ⟨freshId, announcerId, m, none, none, false⟩) := by
  constructor
  · unfold Announcer.subscribe
    rw [hst]
    rfl
  · rfl

/-- Witness for C3 (amended): supplying both `do` and `to` on an empty
registry raises; supplying neither registers an inert subscription. -/
theorem C3_both_raises_neither_registers_witness :
    Announcer.subscribe 0 5 ⟨[]⟩ (.single tyBase) (some aOne) none (some ⟨3, []⟩)
        = .error .assertionError
    ∧ Announcer.subscribe 0 5 ⟨[]⟩ (.single tyBase) none none none
        = .ok (⟨5, 0, .single tyBase, none, none, false⟩,
               SubscriptionRegistry.add ⟨[]⟩ ⟨5, 0, .single tyBase, none, none, false⟩) :=
  C3_both_raises_neither_registers 0 5 ⟨[]⟩ (.single tyBase) aOne none (some ⟨3, []⟩) rfl

/-! ### C5 -/

/-- C5: `announce` on a bare class constructs a default instance of that
very class and returns it; `announce` on an existing instance returns
that instance; with zero registered subscriptions the call is not an
error and performs no delivery at all; with a non-empty registry the
normalized instance is what gets delivered, and (when delivery does not
raise) what is returned. -/
theorem C5_announce_normalizes_and_returns (t : Ty) (i : Ann) (x : AnnValue)
    (fresh : Nat) (r : SubscriptionRegistry) (snap : List Subscription)
    (hne : r.subscriptions ≠ [])
    (hok : (SubscriptionRegistry.deliverTo (asAnnouncement fresh x) snap).2 = none) :
    (asAnnouncement fresh (.cls t) = ⟨t, fresh⟩ ∧ (asAnnouncement fresh (.cls t)).ty = t)
    ∧ asAnnouncement fresh (.inst i) = i
    ∧ Announcer.announce ⟨[]⟩ snap x fresh = ([], .ok (asAnnouncement fresh x))
    ∧ Announcer.announce r snap x fresh
        = ((SubscriptionRegistry.deliverTo (asAnnouncement fresh x) snap).1,
           .ok (asAnnouncement fresh x)) := by
  refine ⟨⟨rfl, rfl⟩, rfl, ?_, ?_⟩
  · unfold Announcer.announce
    simp
  · unfold Announcer.announce
    have hlen : r.subscriptions.length ≠ 0 := by
      simpa [List.length_eq_zero] using hne
    rw [if_pos hlen]
    rcases hd : SubscriptionRegistry.deliverTo (asAnnouncement fresh x) snap with ⟨evts, err⟩
    have h2 := hok
    rw [hd] at h2
    simp only at h2
    subst h2
    simp [hd]

/-- Witness for C5: announcing the bare subclass `tyChild` over the
two-subscription registry `cReg`. -/
theorem C5_announce_normalizes_and_returns_witness :
    (asAnnouncement 9 (.cls tyChild) = ⟨tyChild, 9⟩
        ∧ (asAnnouncement 9 (.cls tyChild)).ty = tyChild)
    ∧ asAnnouncement 9 (.inst cAnn) = cAnn
    ∧ Announcer.announce ⟨[]⟩ [cS1, cS2] (.cls tyChild) 9
        = ([], .ok (asAnnouncement 9 (.cls tyChild)))
    ∧ Announcer.announce cReg [cS1, cS2] (.cls tyChild) 9
        = ((SubscriptionRegistry.deliverTo (asAnnouncement 9 (.cls tyChild)) [cS1, cS2]).1,
           .ok (asAnnouncement 9 (.cls tyChild))) :=
  C5_announce_normalizes_and_returns tyChild cAnn (.cls tyChild) 9 cReg [cS1, cS2]
    (by decide) (by decide)

/-! ### C6 -/

/-- C6: a plain type handles a candidate iff the candidate is the same
class or a descendant of it; an announcement set handles a candidate iff
some member does; consequently a subscription to a supertype fires for
an announced instance of any subtype, and a subscription never fires for
an unrelated type. -/
theorem C6_handles_hierarchy (cls cand B C A : Ty) (ms : List Ty)
    (s t : Subscription) (a : PyAction) (n : Nat)
    (hsB : s.announcementClass = .single B)
    (hCB : issubclass C B = true)
    (ha : s.action = some a)
    (h1 : Subscription.argumentsCountOf a = 1)
    (hnr : a.raises = false)
    (htA : t.announcementClass = .single A)
    (hAB : Announcement.handles A B = false) :
    (Announcement.handles cls cand = true ↔
        (cand.id = cls.id ∨ cls.id ∈ cand.ancestors))
    ∧ (AnnouncementSet.handles ms cand = true ↔
        ∃ m ∈ ms, Announcement.handles m cand = true)
    ∧ s.handles C = true
    ∧ s.deliver ⟨C, n⟩ = ([CallEvent.call1 a.id n], none)
    ∧ t.deliver ⟨B, n⟩ = ([], none) := by
  have hsC : s.handles C = true := by
    simp [Subscription.handles, hsB, Matcher.handles, Announcement.handles, hCB]
  refine ⟨?_, ?_, hsC, ?_, ?_⟩
  · unfold Announcement.handles issubclass
    simp only [Bool.or_eq_true, beq_iff_eq, List.elem_iff]
    tauto
  · unfold AnnouncementSet.handles
    simp [List.any_eq_true]
  · unfold Subscription.deliver
    rw [show (⟨C, n⟩ : Ann).ty = C from rfl, hsC, ha]
    simp [h1, Subscription.invoke, hnr]
  · have htB : t.handles B = false := by
      unfold Subscription.handles
      rw [htA]
      unfold Matcher.handles
      exact hAB
    unfold Subscription.deliver
    rw [show (⟨B, n⟩ : Ann).ty = B from rfl, htB]
    simp

/-- Witness for C6: the subclass `tyChild` is matched by a subscription
to its base, the set of members `[tyBase]` behaves as the disjunction,
and a subscription to the unrelated `tyOther` does not fire for
`tyBase`. -/
theorem C6_handles_hierarchy_witness :
    (Announcement.handles tyBase tyChild = true ↔
        (tyChild.id = tyBase.id ∨ tyBase.id ∈ tyChild.ancestors))
    ∧ (AnnouncementSet.handles [tyBase] tyChild = true ↔
        ∃ m ∈ [tyBase], Announcement.handles m tyChild = true)
    ∧ cS1.handles tyChild = true
    ∧ cS1.deliver ⟨tyChild, 9⟩ = ([CallEvent.call1 1 9], none)
    ∧ oddSub.deliver ⟨tyBase, 9⟩ = ([], none) :=
  C6_handles_hierarchy tyBase tyChild tyBase tyChild tyOther [tyBase] cS1 oddSub aOne 9
    rfl (by decide) rfl (by decide) rfl rfl (by decide)

/-! ### C7 -/

/-- Membership after a Python `set.add`. -/
theorem pySetAdd_mem (l : List Nat) (t x : Nat) :
    x ∈ AnnouncementSet.pySetAdd l t ↔ (x ∈ l ∨ x = t) := by
  unfold AnnouncementSet.pySetAdd
  by_cases hmem : t ∈ l
  · simp only [if_pos hmem]
    constructor
    · exact fun hx => Or.inl hx
    · rintro (hx | rfl)
      · exact hx
      · exact hmem
  · simp [if_neg hmem]

/-- A Python `set.add` keeps the member list duplicate-free. -/
theorem pySetAdd_nodup (l : List Nat) (t : Nat) (hnd : l.Nodup) :
    (AnnouncementSet.pySetAdd l t).Nodup := by
  unfold AnnouncementSet.pySetAdd
  by_cases hmem : t ∈ l
  · simpa [if_pos hmem] using hnd
  · simp [if_neg hmem, List.nodup_append, hnd]
    exact hmem

/-- Counterexample to C7 as stated: on the heap `h0`, whose set object 0
holds the single member 1, evaluating `s + T` (here `addOp h0 0 2`)
returns the very same object 0 — and that operand's membership has
changed from `[1]` to `[1, 2]`.  The claim that the operand observes the
same members afterwards is false. -/
theorem C7_operand_mutated_counterexample :
    (AnnouncementSet.addOp h0 0 2).1 = 0
    ∧ (AnnouncementSet.addOp h0 0 2).2 0 = [1, 2]
    ∧ h0 0 = [1]
    ∧ (AnnouncementSet.addOp h0 0 2).2 0 ≠ h0 0 := by
  refine ⟨rfl, rfl, rfl, by decide⟩

/-- C7 (amended): `s + T` returns the operand object itself — `__add__`
mutates the receiver's inner set in place — with membership the union of
the old members and the added type, duplicates collapsing (adding an
existing member leaves the set unchanged, and `typeA + typeB + typeA`
has size 2); other set objects on the heap are untouched.  The
immutability part of the original claim is what fails. -/
theorem C7_add_union_in_place (h : AnnouncementSet.SetHeap)
    (s fresh tA tB tb : Nat) (hnd : (h s).Nodup) (hAB : tA ≠ tB) :
    ((AnnouncementSet.addOp h s tb).1 = s)
    ∧ (∀ x, x ∈ (AnnouncementSet.addOp h s tb).2 s ↔ (x ∈ h s ∨ x = tb))
    ∧ ((AnnouncementSet.addOp h s tb).2 s).Nodup
    ∧ (tb ∈ h s → (AnnouncementSet.addOp h s tb).2 s = h s)
    ∧ (∀ i, i ≠ s → (AnnouncementSet.addOp h s tb).2 i = h i)
    ∧ ((AnnouncementSet.metaAdd h fresh tA tB).2 fresh).length = 2
    ∧ ((AnnouncementSet.addOp (AnnouncementSet.metaAdd h fresh tA tB).2 fresh tA).2 fresh).length = 2 := by
  have hat : (AnnouncementSet.addOp h s tb).2 s = AnnouncementSet.pySetAdd (h s) tb := by
    unfold AnnouncementSet.addOp
    simp
  have hmeta : (AnnouncementSet.metaAdd h fresh tA tB).2 fresh = [tA, tB] := by
    unfold AnnouncementSet.metaAdd AnnouncementSet.pySetAdd
    simp [hAB.symm]
  refine ⟨rfl, ?_, ?_, ?_, ?_, ?_, ?_⟩
  · intro x
    rw [hat]
    exact pySetAdd_mem (h s) tb x
  · rw [hat]
    exact pySetAdd_nodup (h s) tb hnd
  · intro hmem
    rw [hat]
    unfold AnnouncementSet.pySetAdd
    simp [hmem]
  · intro i hi
    unfold AnnouncementSet.addOp
    simp [hi]
  · rw [hmeta]
    rfl
  · have : (AnnouncementSet.addOp (AnnouncementSet.metaAdd h fresh tA tB).2 fresh tA).2 fresh
        = AnnouncementSet.pySetAdd ((AnnouncementSet.metaAdd h fresh tA tB).2 fresh) tA := by
      unfold AnnouncementSet.addOp
      simp
    rw [this, hmeta]
    unfold AnnouncementSet.pySetAdd
    simp

/-- Witness for C7 (amended): the heap `h0`, its set object 0, fresh
identity 7 and distinct member types 3 and 4. -/
theorem C7_add_union_in_place_witness :
    ((AnnouncementSet.addOp h0 0 2).1 = 0)
    ∧ (∀ x, x ∈ (AnnouncementSet.addOp h0 0 2).2 0 ↔ (x ∈ h0 0 ∨ x = 2))
    ∧ ((AnnouncementSet.addOp h0 0 2).2 0).Nodup
    ∧ (2 ∈ h0 0 → (AnnouncementSet.addOp h0 0 2).2 0 = h0 0)
    ∧ (∀ i, i ≠ 0 → (AnnouncementSet.addOp h0 0 2).2 i = h0 i)
    ∧ ((AnnouncementSet.metaAdd h0 7 3 4).2 7).length = 2
    ∧ ((AnnouncementSet.addOp (AnnouncementSet.metaAdd h0 7 3 4).2 7 3).2 7).length = 2 :=
  C7_add_union_in_place h0 0 7 3 4 2 (by decide) (by decide)

/-! ### C8 -/

/-- Specification of `SubscriptionRegistry.replace` when the old
subscription is registered and the new one's identity is fresh: the old
one is removed, the new one added, and the pair returned. -/
theorem replace_spec (r : SubscriptionRegistry) (s n : Subscription)
    (hmem : s ∈ r.subscriptions)
    (hn : ∀ x ∈ r.subscriptions, x.id ≠ n.id) :
    r.replace s n
      = .ok (n, ⟨r.subscriptions.filter (fun x => x.id ≠ s.id) ++ [n]⟩) := by
  unfold SubscriptionRegistry.replace SubscriptionRegistry.setRemove
  have hany : r.subscriptions.any (fun x => x.id == s.id) = true :=
    List.any_eq_true.mpr ⟨s, hmem, by simp⟩
  rw [hany]
  have hadd : (r.subscriptions.filter (fun x => x.id ≠ s.id)).any
      (fun x => x.id == n.id) = false := by
    rw [List.any_eq_false]
    intro x hx
    have hxr : x ∈ r.subscriptions := (List.mem_filter.mp hx).1
    simp [hn x hxr]
  simp only [if_true]
  unfold SubscriptionRegistry.add SubscriptionRegistry.containsSub
  rw [hadd]
  rfl

/-- C8: on a registered strong subscription whose subscriber and action
are reachable, `makeWeak().makeStrong()` round-trips: each conversion
substitutes the new subscription for the old one in the registry via
`replace`, and the final subscription is strong with the same announcer,
matcher, action and subscriber as the original; a conversion applied to
a subscription already in the target mode returns that subscription with
the registry untouched. -/
theorem C8_weak_strong_roundtrip (env : WeakEnv) (r : SubscriptionRegistry)
    (s : Subscription) (u : Nat) (a : PyAction) (w t : Nat)
    (hstr : s.weak = false)
    (hsub : s.subscriber = some u)
    (hact : s.action = some a)
    (halu : env.subAlive u = true)
    (hala : env.actAlive a.id = true)
    (hmem : s ∈ r.subscriptions)
    (hw : ∀ x ∈ r.subscriptions, x.id ≠ w)
    (ht : ∀ x ∈ r.subscriptions, x.id ≠ t)
    (hwt : w ≠ t) :
    Subscription.makeWeak s w r
        = .ok (⟨w, s.announcer, s.announcementClass, some u, some a, true⟩,
               ⟨r.subscriptions.filter (fun x => x.id ≠ s.id)
                  ++ [⟨w, s.announcer, s.announcementClass, some u, some a, true⟩]⟩)
    ∧ Subscription.makeStrong env
        ⟨w, s.announcer, s.announcementClass, some u, some a, true⟩ t
        ⟨r.subscriptions.filter (fun x => x.id ≠ s.id)
           ++ [⟨w, s.announcer, s.announcementClass, some u, some a, true⟩]⟩
        = .ok (⟨t, s.announcer, s.announcementClass, some u, some a, false⟩,
               ⟨r.subscriptions.filter (fun x => x.id ≠ s.id)
                  ++ [⟨t, s.announcer, s.announcementClass, some u, some a, false⟩]⟩)
    ∧ ((⟨t, s.announcer, s.announcementClass, some u, some a, false⟩ : Subscription).action
          = s.action
        ∧ (⟨t, s.announcer, s.announcementClass, some u, some a, false⟩ : Subscription).subscriber
          = s.subscriber)
    ∧ Subscription.makeStrong env s t r = .ok (s, r)
    ∧ Subscription.makeWeak ⟨w, s.announcer, s.announcementClass, some u, some a, true⟩ w
        ⟨r.subscriptions.filter (fun x => x.id ≠ s.id)
           ++ [⟨w, s.announcer, s.announcementClass, some u, some a, true⟩]⟩
        = .ok (⟨w, s.announcer, s.announcementClass, some u, some a, true⟩,
               ⟨r.subscriptions.filter (fun x => x.id ≠ s.id)
                  ++ [⟨w, s.announcer, s.announcementClass, some u, some a, true⟩]⟩) := by
  have hW1 : Subscription.makeWeak s w r
      = r.replace s ⟨w, s.announcer, s.announcementClass, some u, some a, true⟩ := by
    unfold Subscription.makeWeak
    rw [hstr]
    simp only [Bool.false_eq_true, if_false]
    rw [hsub, hact]
  have hrep1 := replace_spec r s
    ⟨w, s.announcer, s.announcementClass, some u, some a, true⟩ hmem hw
  have hfilter : (r.subscriptions.filter (fun x => x.id ≠ s.id)
        ++ [(⟨w, s.announcer, s.announcementClass, some u, some a, true⟩ : Subscription)]).filter
          (fun x => x.id ≠ w)
      = r.subscriptions.filter (fun x => x.id ≠ s.id) := by
    rw [List.filter_append]
    have h1 : (r.subscriptions.filter (fun x => x.id ≠ s.id)).filter (fun x => x.id ≠ w)
        = r.subscriptions.filter (fun x => x.id ≠ s.id) := by
      apply List.filter_eq_self.mpr
      intro x hx
      have hxr : x ∈ r.subscriptions := (List.mem_filter.mp hx).1
      simp [hw x hxr]
    have h2 : ([(⟨w, s.announcer, s.announcementClass, some u, some a, true⟩ : Subscription)]).filter
        (fun x => x.id ≠ w) = [] := by
      simp
    rw [h1, h2, List.append_nil]
  refine ⟨?_, ?_, ⟨hact.symm, hsub.symm⟩, ?_, ?_⟩
  · rw [hW1, hrep1]
  · unfold Subscription.makeStrong
    simp only [if_true]
    have hrep2 := replace_spec
      ⟨r.subscriptions.filter (fun x => x.id ≠ s.id)
         ++ [⟨w, s.announcer, s.announcementClass, some u, some a, true⟩]⟩
      ⟨w, s.announcer, s.announcementClass, some u, some a, true⟩
      ⟨t, s.announcer, s.announcementClass, some u, some a, false⟩
      (by simp)
      (by
        intro x hx
        rcases List.mem_append.mp hx with hx1 | hx2
        · exact ht x (List.mem_filter.mp hx1).1
        · rw [List.mem_singleton.mp hx2]
          exact hwt)
    simp only [Option.bind, halu, hala, if_true] at *
    rw [hrep2]
    rw [hfilter]
  · unfold Subscription.makeStrong
    rw [hstr]
    simp
  · unfold Subscription.makeWeak
    simp

/-- Witness for C8: converting `cS1` inside `cReg` with fresh
identities 50 and 51, every referent alive. -/
theorem C8_weak_strong_roundtrip_witness :
    Subscription.makeWeak cS1 50 cReg
        = .ok (⟨50, cS1.announcer, cS1.announcementClass, some 1, some aOne, true⟩,
               ⟨cReg.subscriptions.filter (fun x => x.id ≠ cS1.id)
                  ++ [⟨50, cS1.announcer, cS1.announcementClass, some 1, some aOne, true⟩]⟩)
    ∧ Subscription.makeStrong allAlive
        ⟨50, cS1.announcer, cS1.announcementClass, some 1, some aOne, true⟩ 51
        ⟨cReg.subscriptions.filter (fun x => x.id ≠ cS1.id)
           ++ [⟨50, cS1.announcer, cS1.announcementClass, some 1, some aOne, true⟩]⟩
        = .ok (⟨51, cS1.announcer, cS1.announcementClass, some 1, some aOne, false⟩,
               ⟨cReg.subscriptions.filter (fun x => x.id ≠ cS1.id)
                  ++ [⟨51, cS1.announcer, cS1.announcementClass, some 1, some aOne, false⟩]⟩)
    ∧ ((⟨51, cS1.announcer, cS1.announcementClass, some 1, some aOne, false⟩ : Subscription).action
          = cS1.action
        ∧ (⟨51, cS1.announcer, cS1.announcementClass, some 1, some aOne, false⟩ : Subscription).subscriber
          = cS1.subscriber)
    ∧ Subscription.makeStrong allAlive cS1 51 cReg = .ok (cS1, cReg)
    ∧ Subscription.makeWeak ⟨50, cS1.announcer, cS1.announcementClass, some 1, some aOne, true⟩ 50
        ⟨cReg.subscriptions.filter (fun x => x.id ≠ cS1.id)
           ++ [⟨50, cS1.announcer, cS1.announcementClass, some 1, some aOne, true⟩]⟩
        = .ok (⟨50, cS1.announcer, cS1.announcementClass, some 1, some aOne, true⟩,
               ⟨cReg.subscriptions.filter (fun x => x.id ≠ cS1.id)
                  ++ [⟨50, cS1.announcer, cS1.announcementClass, some 1, some aOne, true⟩]⟩) :=
  C8_weak_strong_roundtrip allAlive cReg cS1 1 aOne 50 51 rfl rfl rfl rfl rfl
    (by decide) (by decide) (by decide) (by decide)

/-! ### C9 -/

/-- C9: the reclamation callback's removal never raises:
`SubscriptionRegistry.remove` checks membership before touching the
backing set, so `finalize` always returns the registry with the
subscription filtered out; invoking it a second time is a no-op
returning the same registry, and invoking it on a registry that never
held the subscription returns that registry unchanged. -/
theorem C9_finalize_removal_never_raises (r : SubscriptionRegistry) (s : Subscription) :
    WeakAnnouncementSubscription.finalize r s
        = .ok ⟨r.subscriptions.filter (fun x => x.id ≠ s.id)⟩
    ∧ WeakAnnouncementSubscription.finalize
        ⟨r.subscriptions.filter (fun x => x.id ≠ s.id)⟩ s
        = .ok ⟨r.subscriptions.filter (fun x => x.id ≠ s.id)⟩
    ∧ (r.containsSub s = false → WeakAnnouncementSubscription.finalize r s = .ok r) := by
  have hfil : ∀ (l : List Subscription),
      (l.filter (fun x => x.id ≠ s.id)).any (fun x => x.id == s.id) = false := by
    intro l
    rw [List.any_eq_false]
    intro x hx
    have := (List.mem_filter.mp hx).2
    simpa using this
  have habsent : ∀ (q : SubscriptionRegistry), q.containsSub s = false →
      WeakAnnouncementSubscription.finalize q s = .ok q := by
    intro q hq
    unfold WeakAnnouncementSubscription.finalize SubscriptionRegistry.remove
    rw [hq]
    rfl
  refine ⟨?_, ?_, habsent r⟩
  · unfold WeakAnnouncementSubscription.finalize SubscriptionRegistry.remove
      SubscriptionRegistry.containsSub SubscriptionRegistry.setRemove
    by_cases hmem : r.subscriptions.any (fun x => x.id == s.id) = true
    · rw [hmem]
      rfl
    · have hfalse : r.subscriptions.any (fun x => x.id == s.id) = false :=
        Bool.eq_false_iff.mpr hmem
      rw [hfalse]
      have : r.subscriptions.filter (fun x => x.id ≠ s.id) = r.subscriptions := by
        apply List.filter_eq_self.mpr
        intro x hx
        have hne : (x.id == s.id) = false := by
          have := List.any_eq_false.mp hfalse x hx
          simpa using this
        simpa using hne
      rw [this]
      rfl
  · apply habsent
    unfold SubscriptionRegistry.containsSub
    exact hfil r.subscriptions

/-- Witness for C9: removing `cS1` from a registry that only ever held
`cS2` leaves the registry unchanged and raises nothing. -/
theorem C9_finalize_removal_never_raises_witness :
    WeakAnnouncementSubscription.finalize ⟨[cS2]⟩ cS1 = .ok ⟨[cS2]⟩ :=
  (C9_finalize_removal_never_raises ⟨[cS2]⟩ cS1).2.2 (by decide)
